import Mathlib

/-!
Verification of the StreamPoseML real-time windowed classification pipeline.

Shallow embedding of:
  * `MLFlowClient` (stream_pose_ml/ml_flow_client.py): the session state
    (`frame_window`, `frames` deque, `current_classification`, the input
    column schema) and its two operations
    `update_frame_data_from_js_client_keypoints` and `run_keypoint_pipeline`.
  * `handle_keypoints` (pose_parser/api/app.py): the socket handler that
    drives the pipeline and emits outward events.

External collaborators (pose estimation serializer, BlazePoseSequence
assembly + serializer, the sequence transformer, the prediction function,
the actuator) are injected dependencies in the source; they are modelled as
fields of an `Env` record of total/`Except`-valued functions.  Python
values returned by the prediction function are modelled by `PyVal` with a
`truthy` coercion mirroring Python `bool(...)`; a raised exception is the
`Except.error` branch, carried together with the mutated object state at
the point of the raise.  Wall-clock readings (`time.time()`, `time.time_ns()`)
are impure inputs and are passed to the handler as parameters.
-/

namespace StreamPoseML

/-- Raw landmark observation blob as delivered by the transport; its
internal structure is irrelevant to the pipeline, which only hands it to
the injected `serialize_pose_landmarks`. -/
abbrev Landmark := Nat

/-- Serialized joint positions produced by `mpc.serialize_pose_landmarks`;
treated as opaque data. -/
abbrev JointPositions := List Nat

/-- A Python exception payload. -/
abbrev PyErr := String

/-- A small model of Python runtime values, enough to express the
truthiness coercion `bool(x)` applied to the prediction function result. -/
inductive PyVal where
  | pynone
  | pybool (b : Bool)
  | pyint (n : Int)
  | pystr (s : String)
  | pylist (len : Nat)
  deriving DecidableEq, Repr

/-- Python `bool(x)`. -/
def PyVal.truthy : PyVal → Bool
  | .pynone => false
  | .pybool b => b
  | .pyint n => decide (n ≠ 0)
  | .pystr s => decide (s ≠ "")
  | .pylist n => decide (n ≠ 0)

/-- The `frame_data` dict built by
`update_frame_data_from_js_client_keypoints`: four fixed keys, plus
`joint_positions` added only when the observation carries landmarks. -/
structure Frame where
  sequence_id : Option Nat
  sequence_source : String
  frame_number : Option Nat
  image_dimensions : Option (Nat × Nat)
  joint_positions : Option JointPositions
  deriving DecidableEq, Repr

/-- An inbound observation: the `landmarks` key may be absent (`none`)
or present with a (possibly empty) list. -/
structure Keypoints where
  landmarks : Option (List Landmark)
  deriving DecidableEq, Repr

/-- The Python guard `"landmarks" in keypoint_results and
len(keypoint_results["landmarks"])`: key present and list non-empty. -/
def Keypoints.valid (k : Keypoints) : Bool :=
  match k.landmarks with
  | some (_ :: _) => true
  | _ => false

/-- `collections.deque(maxlen := m).append x`: the deque keeps the last
`m` elements, discarding from the front on overflow. -/
def dequeAppend {α : Type} (m : Nat) (xs : List α) (x : α) : List α :=
  let ys := xs ++ [x]
  ys.drop (ys.length - m)

/-- Mutable/session state of `MLFlowClient`.  The injected callables from
`__init__` (mediapipe client, transformer, `predict_fn`) live in `Env`;
`input_columns` is `input_example["columns"]`. -/
structure MLFlowClient where
  frame_window : Nat
  input_columns : List String
  frames : List Frame
  current_classification : Option Bool
  deriving DecidableEq, Repr

/-- `MLFlowClient.__init__`: empty deque, no classification. -/
def MLFlowClient.init (frame_window : Nat) (input_columns : List String) :
    MLFlowClient :=
  { frame_window := frame_window
    input_columns := input_columns
    frames := []
    current_classification := none }

/-- The injected collaborators of the pipeline.  `assembleSerialize`
folds `BlazePoseSequence(...).generate_blaze_pose_frames_from_sequence()`
followed by `BlazePoseSequenceSerializer().serialize` (both external to
the core); `transform` is `self.transformer.transform`, returning data
plus metadata; `predict_fn` is the optional prediction callable, whose
call may raise; `actuator_ack` is what `actuator.receive()` returns. -/
structure Env (σ φ : Type) where
  serialize_pose_landmarks : Landmark → JointPositions
  assembleSerialize : List Frame → σ
  transform : σ → List String → φ × List String
  predict_fn : Option (φ → Except PyErr PyVal)
  actuator_ack : String

/-- The canonical frame an observation turns into when appended:
`joint_positions` is the serialization of `landmarks[0]`. -/
def frameOf {σ φ : Type} (env : Env σ φ) (k : Keypoints) : Frame :=
  { sequence_id := none
    sequence_source := "web"
    frame_number := none
    image_dimensions := none
    joint_positions :=
      (k.landmarks.bind List.head?).map env.serialize_pose_landmarks }

/-- `MLFlowClient.update_frame_data_from_js_client_keypoints`: when the
observation has a non-empty `landmarks` list, build `frame_data` (with
`joint_positions` from `landmarks[0]`) and append it to the deque;
otherwise do nothing.  Either way it returns `self.frames`. -/
def update_frame_data_from_js_client_keypoints {σ φ : Type} (env : Env σ φ)
    (c : MLFlowClient) (keypoint_results : Keypoints) :
    MLFlowClient × List Frame :=
  match keypoint_results.landmarks with
  | some (l0 :: _) =>
    let frame_data : Frame :=
      { sequence_id := none
        sequence_source := "web"
        frame_number := none
        image_dimensions := none
        joint_positions := some (env.serialize_pose_landmarks l0) }
    let frames := dequeAppend c.frame_window c.frames frame_data
    ({ c with frames := frames }, frames)
  | _ => (c, c.frames)

/-- Result of one `run_keypoint_pipeline` call.  `client` is the object
state when control leaves the method (on an exception, the state at the
raise); `ret` is the Python return value (`None` on every non-raising
path) or the propagated exception.  `stageRan` instruments whether
control entered the full-window branch (observable in the source as the
`BlazePoseSequence`/serializer/transformer calls); `predictCalled`
instruments whether `predict_fn` was invoked. -/
structure RunResult where
  client : MLFlowClient
  ret : Except PyErr PyVal
  stageRan : Bool
  predictCalled : Bool
  deriving Repr

/-- `MLFlowClient.run_keypoint_pipeline`: update the frame deque; if the
deque length equals `frame_window`, assemble and serialize the sequence,
transform it against `input_columns`, then — only if `predict_fn` is set —
store `bool(predict_fn(data))` into `current_classification`.  The method
returns `None` on every path; an exception inside `predict_fn` is not
caught and propagates. -/
def run_keypoint_pipeline {σ φ : Type} (env : Env σ φ) (c : MLFlowClient)
    (keypoints : Keypoints) : RunResult :=
  let up := update_frame_data_from_js_client_keypoints env c keypoints
  let c1 := up.1
  let current_frames := up.2
  if current_frames.length = c1.frame_window then
    let sequence_data := env.assembleSerialize current_frames
    let dm := env.transform sequence_data c1.input_columns
    let data := dm.1
    match env.predict_fn with
    | none =>
      { client := c1, ret := .ok .pynone, stageRan := true
        predictCalled := false }
    | some f =>
      match f data with
      | .ok v =>
        { client := { c1 with current_classification := some v.truthy }
          ret := .ok .pynone, stageRan := true, predictCalled := true }
      | .error e =>
        { client := c1, ret := .error e, stageRan := true
          predictCalled := true }
  else
    { client := c1, ret := .ok .pynone, stageRan := false
      predictCalled := false }

/-- The outward `frame_result` payload built in `handle_keypoints` when
the emission guard passes. -/
structure ClassificationEvent where
  classification : Bool
  timestamp : String
  processing_time_s : ℚ
  frame_rate_capacity_hz : ℚ
  actuation : String
  deriving DecidableEq, Repr

/-- Events emitted back to the client over the socket. -/
inductive OutEvent where
  | no_model
  | frame_result (ev : ClassificationEvent)
  deriving DecidableEq, Repr

/-- Outcome of one `handle_keypoints` invocation: the (possibly updated)
session client, the emitted events, the commands sent to the actuator,
and an exception if one escaped the handler body. -/
structure HandlerResult where
  poser_client : Option MLFlowClient
  emitted : List OutEvent
  actuations : List String
  exn : Option PyErr
  deriving Repr

/-- `handle_keypoints` (api/app.py): if no client is bound, emit
`{"error": "No model set"}` and return.  Otherwise run the pipeline;
if the returned value is truthy AND `current_classification` is not
`None`, build the result payload (classification, nanosecond timestamp
string, processing time, `1.0 / speed`), send `"a"` to the actuator,
attach its ack, and emit; otherwise emit nothing.  `speed` is the
measured wall-clock duration of the pipeline call and `tns` the
`time.time_ns()` reading, both impure inputs. -/
def handle_keypoints {σ φ : Type} (env : Env σ φ) (speed : ℚ) (tns : Nat)
    (poser_client : Option MLFlowClient) (payload : Keypoints) :
    HandlerResult :=
  match poser_client with
  | none =>
    { poser_client := none, emitted := [.no_model], actuations := []
      exn := none }
  | some c =>
    let r := run_keypoint_pipeline env c payload
    match r.ret with
    | .error e =>
      { poser_client := some r.client, emitted := [], actuations := []
        exn := some e }
    | .ok results =>
      match results.truthy, r.client.current_classification with
      | true, some classification =>
        let return_payload : ClassificationEvent :=
          { classification := classification
            timestamp := toString tns
            processing_time_s := speed
            frame_rate_capacity_hz := 1 / speed
            actuation := env.actuator_ack }
        { poser_client := some r.client
          emitted := [.frame_result return_payload]
          actuations := ["a"], exn := none }
      | _, _ =>
        { poser_client := some r.client, emitted := [], actuations := []
          exn := none }

/-- Fold a list of observations through the frame-update operation. -/
def pushAll {σ φ : Type} (env : Env σ φ) (c : MLFlowClient)
    (ks : List Keypoints) : MLFlowClient :=
  ks.foldl
    (fun c k => (update_frame_data_from_js_client_keypoints env c k).1) c

/-- Concrete collaborator instantiation used to evaluate the model on
closed inputs: landmarks serialize to a singleton, assembly and
transformation are identities carrying their inputs through. -/
def testEnv (pf : Option (List Frame × List String → Except PyErr PyVal)) :
    Env (List Frame) (List Frame × List String) :=
  { serialize_pose_landmarks := fun l => [l]
    assembleSerialize := fun fs => fs
    transform := fun s cols => ((s, cols), [])
    predict_fn := pf
    actuator_ack := "ok" }

theorem dequeAppend_length {α : Type} (m : Nat) (xs : List α) (x : α) :
    (dequeAppend m xs x).length = min (xs.length + 1) m := by
  simp [dequeAppend]
  omega

theorem dequeAppend_eq_drop {α : Type} (m : Nat) (xs : List α) (x : α) :
    dequeAppend m xs x = (xs ++ [x]).drop (xs.length + 1 - m) := by
  simp [dequeAppend]

theorem foldl_dequeAppend {α : Type} (m : Nat) (ys : List α) :
    ∀ xs : List α, xs.length ≤ m →
      ys.foldl (dequeAppend m) xs = (xs ++ ys).drop ((xs ++ ys).length - m) := by
  induction ys with
  | nil =>
    intro xs h
    simp [Nat.sub_eq_zero_of_le h]
  | cons y t ih =>
    intro xs h
    have hlen : (dequeAppend m xs y).length ≤ m := by
      rw [dequeAppend_length]; omega
    rw [List.foldl_cons, ih _ hlen, dequeAppend_eq_drop]
    have happ : ((xs ++ [y]) ++ t).drop (xs.length + 1 - m)
        = (xs ++ [y]).drop (xs.length + 1 - m) ++ t := by
      rw [List.drop_append_eq_append_drop]
      have h0 : xs.length + 1 - m - (xs ++ [y]).length = 0 := by
        simp
      rw [h0, List.drop_zero]
    rw [← happ, List.drop_drop]
    have hassoc : (xs ++ [y]) ++ t = xs ++ y :: t := by
      simp
    rw [hassoc]
    congr 1
    simp [List.length_drop]
    omega

theorem update_valid {σ φ : Type} (env : Env σ φ) (c : MLFlowClient)
    (k : Keypoints) (h : k.valid = true) :
    update_frame_data_from_js_client_keypoints env c k
      = ({ c with
            frames := dequeAppend c.frame_window c.frames (frameOf env k) },
         dequeAppend c.frame_window c.frames (frameOf env k)) := by
  cases hk : k.landmarks with
  | none => simp [Keypoints.valid, hk] at h
  | some ls =>
    cases ls with
    | nil => simp [Keypoints.valid, hk] at h
    | cons l0 rest =>
      simp [update_frame_data_from_js_client_keypoints, frameOf, hk]

theorem update_invalid {σ φ : Type} (env : Env σ φ) (c : MLFlowClient)
    (k : Keypoints) (h : k.valid = false) :
    update_frame_data_from_js_client_keypoints env c k = (c, c.frames) := by
  cases hk : k.landmarks with
  | none => simp [update_frame_data_from_js_client_keypoints, hk]
  | some ls =>
    cases ls with
    | nil => simp [update_frame_data_from_js_client_keypoints, hk]
    | cons l0 rest => simp [Keypoints.valid, hk] at h

theorem update_frame_window {σ φ : Type} (env : Env σ φ) (c : MLFlowClient)
    (k : Keypoints) :
    (update_frame_data_from_js_client_keypoints env c k).1.frame_window
      = c.frame_window := by
  rcases hv : k.valid with hv' | hv'
  · rw [update_invalid env c k hv]
  · rw [update_valid env c k hv]

theorem update_classification {σ φ : Type} (env : Env σ φ)
    (c : MLFlowClient) (k : Keypoints) :
    (update_frame_data_from_js_client_keypoints env c k).1.current_classification
      = c.current_classification := by
  rcases hv : k.valid with hv' | hv'
  · rw [update_invalid env c k hv]
  · rw [update_valid env c k hv]

theorem update_input_columns {σ φ : Type} (env : Env σ φ)
    (c : MLFlowClient) (k : Keypoints) :
    (update_frame_data_from_js_client_keypoints env c k).1.input_columns
      = c.input_columns := by
  rcases hv : k.valid with hv' | hv'
  · rw [update_invalid env c k hv]
  · rw [update_valid env c k hv]

theorem update_snd_eq_frames {σ φ : Type} (env : Env σ φ)
    (c : MLFlowClient) (k : Keypoints) :
    (update_frame_data_from_js_client_keypoints env c k).2
      = (update_frame_data_from_js_client_keypoints env c k).1.frames := by
  rcases hv : k.valid with hv' | hv'
  · rw [update_invalid env c k hv]
  · rw [update_valid env c k hv]

theorem pushAll_frames {σ φ : Type} (env : Env σ φ) :
    ∀ (ks : List Keypoints) (c : MLFlowClient),
      (∀ k ∈ ks, k.valid = true) →
      (pushAll env c ks).frames
          = (ks.map (frameOf env)).foldl (dequeAppend c.frame_window) c.frames
        ∧ (pushAll env c ks).frame_window = c.frame_window := by
  intro ks
  induction ks with
  | nil =>
    intro c _
    simp [pushAll]
  | cons k t ih =>
    intro c hv
    have hk : k.valid = true := hv k (List.mem_cons_self k t)
    have hstep : pushAll env c (k :: t)
        = pushAll env (update_frame_data_from_js_client_keypoints env c k).1 t :=
      rfl
    have ihc := ih (update_frame_data_from_js_client_keypoints env c k).1
      (fun k2 h2 => hv k2 (List.mem_cons_of_mem k h2))
    rw [hstep]
    rw [update_valid env c k hk] at ihc ⊢
    refine ⟨?_, ?_⟩
    · rw [ihc.1]
      simp
    · rw [ihc.2]

theorem run_eq_not_full {σ φ : Type} (env : Env σ φ) (c : MLFlowClient)
    (k : Keypoints)
    (h : ¬ (update_frame_data_from_js_client_keypoints env c k).2.length
        = (update_frame_data_from_js_client_keypoints env c k).1.frame_window) :
    run_keypoint_pipeline env c k
      = { client := (update_frame_data_from_js_client_keypoints env c k).1
          ret := .ok .pynone, stageRan := false, predictCalled := false } := by
  simp only [run_keypoint_pipeline]
  rw [if_neg h]

theorem run_eq_full_nopf {σ φ : Type} (env : Env σ φ) (c : MLFlowClient)
    (k : Keypoints)
    (h : (update_frame_data_from_js_client_keypoints env c k).2.length
        = (update_frame_data_from_js_client_keypoints env c k).1.frame_window)
    (hpf : env.predict_fn = none) :
    run_keypoint_pipeline env c k
      = { client := (update_frame_data_from_js_client_keypoints env c k).1
          ret := .ok .pynone, stageRan := true, predictCalled := false } := by
  simp only [run_keypoint_pipeline]
  rw [if_pos h, hpf]

theorem run_eq_full_ok {σ φ : Type} (env : Env σ φ) (c : MLFlowClient)
    (k : Keypoints) (f : φ → Except PyErr PyVal) (v : PyVal)
    (h : (update_frame_data_from_js_client_keypoints env c k).2.length
        = (update_frame_data_from_js_client_keypoints env c k).1.frame_window)
    (hpf : env.predict_fn = some f)
    (hfd : f (env.transform
        (env.assembleSerialize
          (update_frame_data_from_js_client_keypoints env c k).2)
        (update_frame_data_from_js_client_keypoints env c k).1.input_columns).1
      = .ok v) :
    run_keypoint_pipeline env c k
      = { client := { (update_frame_data_from_js_client_keypoints env c k).1 with
            current_classification := some v.truthy }
          ret := .ok .pynone, stageRan := true, predictCalled := true } := by
  simp only [run_keypoint_pipeline]
  rw [if_pos h, hpf]
  simp only [hfd]

theorem run_eq_full_err {σ φ : Type} (env : Env σ φ) (c : MLFlowClient)
    (k : Keypoints) (f : φ → Except PyErr PyVal) (e : PyErr)
    (h : (update_frame_data_from_js_client_keypoints env c k).2.length
        = (update_frame_data_from_js_client_keypoints env c k).1.frame_window)
    (hpf : env.predict_fn = some f)
    (hfd : f (env.transform
        (env.assembleSerialize
          (update_frame_data_from_js_client_keypoints env c k).2)
        (update_frame_data_from_js_client_keypoints env c k).1.input_columns).1
      = .error e) :
    run_keypoint_pipeline env c k
      = { client := (update_frame_data_from_js_client_keypoints env c k).1
          ret := .error e, stageRan := true, predictCalled := true } := by
  simp only [run_keypoint_pipeline]
  rw [if_pos h, hpf]
  simp only [hfd]

theorem run_stageRan_eq {σ φ : Type} (env : Env σ φ) (c : MLFlowClient)
    (k : Keypoints) :
    (run_keypoint_pipeline env c k).stageRan
      = decide ((update_frame_data_from_js_client_keypoints env c k).2.length
          = (update_frame_data_from_js_client_keypoints env c k).1.frame_window)
    := by
  by_cases h : (update_frame_data_from_js_client_keypoints env c k).2.length
      = (update_frame_data_from_js_client_keypoints env c k).1.frame_window
  · rcases hpf : env.predict_fn with _ | f
    · rw [run_eq_full_nopf env c k h hpf]
      simp [h]
    · rcases hfd : f (env.transform
          (env.assembleSerialize
            (update_frame_data_from_js_client_keypoints env c k).2)
          (update_frame_data_from_js_client_keypoints env c k).1.input_columns).1
          with e | v
      · rw [run_eq_full_err env c k f e h hpf hfd]
        simp [h]
      · rw [run_eq_full_ok env c k f v h hpf hfd]
        simp [h]
  · rw [run_eq_not_full env c k h]
    simp [h]

theorem run_client_frames {σ φ : Type} (env : Env σ φ) (c : MLFlowClient)
    (k : Keypoints) :
    (run_keypoint_pipeline env c k).client.frames
      = (update_frame_data_from_js_client_keypoints env c k).1.frames := by
  by_cases h : (update_frame_data_from_js_client_keypoints env c k).2.length
      = (update_frame_data_from_js_client_keypoints env c k).1.frame_window
  · rcases hpf : env.predict_fn with _ | f
    · rw [run_eq_full_nopf env c k h hpf]
    · rcases hfd : f (env.transform
          (env.assembleSerialize
            (update_frame_data_from_js_client_keypoints env c k).2)
          (update_frame_data_from_js_client_keypoints env c k).1.input_columns).1
          with e | v
      · rw [run_eq_full_err env c k f e h hpf hfd]
      · rw [run_eq_full_ok env c k f v h hpf hfd]
  · rw [run_eq_not_full env c k h]

/-- Claim C3: for every frame window of capacity C > 0 and every sequence
of N pushes of valid frames, the window length is at all times at most C;
when the window is at capacity, pushing one more valid frame evicts
exactly the oldest frame; and after N ≥ C valid pushes from a fresh
session the window holds exactly the last C pushed frames in arrival
order. -/
theorem C3_sliding_window {σ φ : Type} (env : Env σ φ) (C : Nat)
    (cols : List String) (ks : List Keypoints)
    (hv : ∀ k ∈ ks, k.valid = true) (hC : 0 < C) (hN : C ≤ ks.length) :
    (∀ n : Nat,
        ((pushAll env (MLFlowClient.init C cols) (ks.take n)).frames).length
          ≤ C)
    ∧ (∀ (c : MLFlowClient) (k : Keypoints), c.frame_window = C →
        c.frames.length = C → k.valid = true →
        (update_frame_data_from_js_client_keypoints env c k).1.frames
          = c.frames.tail ++ [frameOf env k])
    ∧ (pushAll env (MLFlowClient.init C cols) ks).frames
        = (ks.map (frameOf env)).drop (ks.length - C) := by
  have hmain : ∀ ks2 : List Keypoints, (∀ k ∈ ks2, k.valid = true) →
      (pushAll env (MLFlowClient.init C cols) ks2).frames
        = (ks2.map (frameOf env)).drop (ks2.length - C) := by
    intro ks2 hv2
    have h1 := (pushAll_frames env ks2 (MLFlowClient.init C cols) hv2).1
    rw [h1]
    show (ks2.map (frameOf env)).foldl (dequeAppend C) [] = _
    rw [foldl_dequeAppend C (ks2.map (frameOf env)) [] (by simp)]
    simp
  refine ⟨?_, ?_, hmain ks hv⟩
  · intro n
    rw [hmain (ks.take n) (fun k hk => hv k (List.take_subset n ks hk))]
    simp only [List.length_drop, List.length_map, List.length_take]
    omega
  · intro c k hcw hlen hkv
    rw [update_valid env c k hkv]
    show dequeAppend c.frame_window c.frames (frameOf env k) = _
    rw [dequeAppend_eq_drop, hcw, hlen]
    have h1 : C + 1 - C = 1 := by omega
    rw [h1, List.drop_append_eq_append_drop, hlen]
    have h2 : 1 - C = 0 := by omega
    rw [h2, List.drop_zero, List.drop_one]

theorem C3_sliding_window_witness :
    (pushAll (testEnv none) (MLFlowClient.init 2 [])
        [⟨some [1]⟩, ⟨some [2]⟩, ⟨some [3]⟩]).frames
      = [frameOf (testEnv none) ⟨some [2]⟩, frameOf (testEnv none) ⟨some [3]⟩]
    := by
  have h := (C3_sliding_window (testEnv none) 2 []
    [⟨some [1]⟩, ⟨some [2]⟩, ⟨some [3]⟩] (by decide) (by decide) (by decide)).2.2
  exact h.trans (by decide)

/-- Claim C4: an observation with missing or empty landmarks is dropped
silently before reaching the frame window: the update step — a total
operation, so nothing is raised — leaves the client and the window
contents, hence window length and frame order, exactly unchanged. -/
theorem C4_invalid_dropped {σ φ : Type} (env : Env σ φ) (c : MLFlowClient)
    (k : Keypoints) (h : k.valid = false) :
    update_frame_data_from_js_client_keypoints env c k = (c, c.frames)
    ∧ (update_frame_data_from_js_client_keypoints env c k).1.frames
        = c.frames := by
  exact ⟨update_invalid env c k h, by rw [update_invalid env c k h]⟩

theorem C4_invalid_dropped_witness :
    Keypoints.valid ⟨some []⟩ = false
    ∧ (update_frame_data_from_js_client_keypoints (testEnv none)
          (MLFlowClient.init 2 []) ⟨some []⟩
        = (MLFlowClient.init 2 [], (MLFlowClient.init 2 []).frames)
      ∧ (update_frame_data_from_js_client_keypoints (testEnv none)
          (MLFlowClient.init 2 []) ⟨some []⟩).1.frames
        = (MLFlowClient.init 2 []).frames) :=
  ⟨by decide,
   C4_invalid_dropped (testEnv none) (MLFlowClient.init 2 []) ⟨some []⟩
     (by decide)⟩

/-- Claim C5: the assemble→transform→predict stage runs iff the frame
window length equals its capacity after the observation is offered; when
the window is not full the call returns None and the stored
classification is untouched (no result emitted for that observation);
with capacity 1, every valid push triggers the stage. -/
theorem C5_full_window_iff {σ φ : Type} (env : Env σ φ) (c : MLFlowClient)
    (k : Keypoints) :
    ((run_keypoint_pipeline env c k).stageRan = true
      ↔ (update_frame_data_from_js_client_keypoints env c k).2.length
          = c.frame_window)
    ∧ ((run_keypoint_pipeline env c k).stageRan = false →
        (run_keypoint_pipeline env c k).client.current_classification
            = c.current_classification
          ∧ (run_keypoint_pipeline env c k).ret = .ok .pynone)
    ∧ (c.frame_window = 1 → k.valid = true →
        (run_keypoint_pipeline env c k).stageRan = true) := by
  have hfw := update_frame_window env c k
  have hsr := run_stageRan_eq env c k
  refine ⟨?_, ?_, ?_⟩
  · rw [hsr, hfw]
    simp
  · intro hfalse
    rw [hsr] at hfalse
    have hne : ¬ (update_frame_data_from_js_client_keypoints env c k).2.length
        = (update_frame_data_from_js_client_keypoints env c k).1.frame_window
      := by simpa using hfalse
    rw [run_eq_not_full env c k hne]
    exact ⟨update_classification env c k, rfl⟩
  · intro h1 hkv
    rw [hsr, hfw, h1]
    rw [update_valid env c k hkv]
    show decide ((dequeAppend c.frame_window c.frames (frameOf env k)).length
      = 1) = true
    rw [dequeAppend_length]
    simp
    omega

theorem C5_full_window_iff_witness :
    (((run_keypoint_pipeline (testEnv none) (MLFlowClient.init 1 [])
        ⟨some [5]⟩).stageRan = true
      ↔ (update_frame_data_from_js_client_keypoints (testEnv none)
          (MLFlowClient.init 1 []) ⟨some [5]⟩).2.length
          = (MLFlowClient.init 1 []).frame_window)
    ∧ (((run_keypoint_pipeline (testEnv none) (MLFlowClient.init 1 [])
          ⟨some [5]⟩).stageRan = false →
        (run_keypoint_pipeline (testEnv none) (MLFlowClient.init 1 [])
            ⟨some [5]⟩).client.current_classification
            = (MLFlowClient.init 1 []).current_classification
          ∧ (run_keypoint_pipeline (testEnv none) (MLFlowClient.init 1 [])
              ⟨some [5]⟩).ret = .ok .pynone)
    ∧ ((MLFlowClient.init 1 []).frame_window = 1 →
        Keypoints.valid ⟨some [5]⟩ = true →
        (run_keypoint_pipeline (testEnv none) (MLFlowClient.init 1 [])
          ⟨some [5]⟩).stageRan = true))) :=
  C5_full_window_iff (testEnv none) (MLFlowClient.init 1 []) ⟨some [5]⟩

/-- Claim C6: when an observation arrives while no classifier is bound,
the handler emits exactly one structured No-model-set error event,
buffers no frame (the session state is untouched and still unbound),
raises nothing, and returns normally. -/
theorem C6_no_model {σ φ : Type} (env : Env σ φ) (speed : ℚ) (tns : Nat)
    (payload : Keypoints) :
    handle_keypoints env speed tns none payload
      = { poser_client := none, emitted := [.no_model], actuations := []
          exn := none } := rfl

/-- Claim C7: with no prediction function configured, the pipeline step
short-circuits without raising — the call returns None normally — and
propagates no classification: the stored value is left unchanged. -/
theorem C7_no_predict_fn {σ φ : Type} (env : Env σ φ) (c : MLFlowClient)
    (k : Keypoints) (hpf : env.predict_fn = none) :
    (run_keypoint_pipeline env c k).ret = .ok .pynone
    ∧ (run_keypoint_pipeline env c k).client.current_classification
        = c.current_classification := by
  by_cases h : (update_frame_data_from_js_client_keypoints env c k).2.length
      = (update_frame_data_from_js_client_keypoints env c k).1.frame_window
  · rw [run_eq_full_nopf env c k h hpf]
    exact ⟨rfl, update_classification env c k⟩
  · rw [run_eq_not_full env c k h]
    exact ⟨rfl, update_classification env c k⟩

theorem C7_no_predict_fn_witness :
    (run_keypoint_pipeline (testEnv none) (MLFlowClient.init 1 [])
        ⟨some [9]⟩).ret = .ok .pynone
    ∧ (run_keypoint_pipeline (testEnv none) (MLFlowClient.init 1 [])
        ⟨some [9]⟩).client.current_classification
        = (MLFlowClient.init 1 []).current_classification :=
  C7_no_predict_fn (testEnv none) (MLFlowClient.init 1 []) ⟨some [9]⟩ rfl

/-- Claim C8: an observation with missing or empty landmarks arriving
while the window is already full still triggers the full
assemble→transform→predict pass over the unchanged window, because the
frame-update step returns the frames deque unconditionally. -/
theorem C8_invalid_on_full_window {σ φ : Type} (env : Env σ φ)
    (c : MLFlowClient) (k : Keypoints)
    (hfull : c.frames.length = c.frame_window) (hkv : k.valid = false) :
    (run_keypoint_pipeline env c k).stageRan = true
    ∧ (run_keypoint_pipeline env c k).client.frames = c.frames
    ∧ (∀ f, env.predict_fn = some f →
        (run_keypoint_pipeline env c k).predictCalled = true) := by
  have hup := update_invalid env c k hkv
  have h : (update_frame_data_from_js_client_keypoints env c k).2.length
      = (update_frame_data_from_js_client_keypoints env c k).1.frame_window
    := by rw [hup]; exact hfull
  refine ⟨?_, ?_, ?_⟩
  · rw [run_stageRan_eq env c k, h]
    simp
  · rw [run_client_frames env c k, hup]
  · intro f hpf
    rcases hfd : f (env.transform
        (env.assembleSerialize
          (update_frame_data_from_js_client_keypoints env c k).2)
        (update_frame_data_from_js_client_keypoints env c k).1.input_columns).1
        with e | v
    · rw [run_eq_full_err env c k f e h hpf hfd]
    · rw [run_eq_full_ok env c k f v h hpf hfd]

/-- Prediction function used on closed inputs: always classifies True. -/
def predTrue : List Frame × List String → Except PyErr PyVal :=
  fun _ => .ok (.pybool true)

/-- Prediction function used on closed inputs: returns a non-boolean
string label. -/
def predStr : List Frame × List String → Except PyErr PyVal :=
  fun _ => .ok (.pystr "positive")

/-- Prediction function used on closed inputs: raises. -/
def predRaise : List Frame × List String → Except PyErr PyVal :=
  fun _ => .error "boom"

/-- A one-frame client whose window is already full, for closed inputs. -/
def fullClient1 : MLFlowClient :=
  { frame_window := 1
    input_columns := []
    frames := [frameOf (testEnv none) ⟨some [7]⟩]
    current_classification := none }

theorem C8_invalid_on_full_window_witness :
    fullClient1.frames.length = fullClient1.frame_window
    ∧ Keypoints.valid ⟨none⟩ = false
    ∧ ((run_keypoint_pipeline (testEnv (some predTrue)) fullClient1
          ⟨none⟩).stageRan = true
      ∧ (run_keypoint_pipeline (testEnv (some predTrue)) fullClient1
          ⟨none⟩).client.frames = fullClient1.frames
      ∧ (∀ f, (testEnv (some predTrue)).predict_fn = some f →
          (run_keypoint_pipeline (testEnv (some predTrue)) fullClient1
            ⟨none⟩).predictCalled = true)) :=
  ⟨by decide, by decide,
   C8_invalid_on_full_window (testEnv (some predTrue)) fullClient1 ⟨none⟩
     (by decide) (by decide)⟩

/-- Claim C9: once `current_classification` holds a value, no operation
of the client resets it to None: the pipeline either leaves it unchanged
or overwrites it with `some (bool ...)`, and the frame-update step never
touches it. -/
theorem C9_classification_never_reset {σ φ : Type} (env : Env σ φ)
    (c : MLFlowClient) (k : Keypoints)
    (h : c.current_classification ≠ none) :
    (run_keypoint_pipeline env c k).client.current_classification ≠ none
    ∧ (update_frame_data_from_js_client_keypoints env c
          k).1.current_classification ≠ none := by
  have hupd := update_classification env c k
  refine ⟨?_, by rw [hupd]; exact h⟩
  by_cases hful : (update_frame_data_from_js_client_keypoints env c
      k).2.length
      = (update_frame_data_from_js_client_keypoints env c k).1.frame_window
  · rcases hpf : env.predict_fn with _ | f
    · rw [run_eq_full_nopf env c k hful hpf]
      show (update_frame_data_from_js_client_keypoints env c
        k).1.current_classification ≠ none
      rw [hupd]; exact h
    · rcases hfd : f (env.transform
          (env.assembleSerialize
            (update_frame_data_from_js_client_keypoints env c k).2)
          (update_frame_data_from_js_client_keypoints env c
            k).1.input_columns).1
          with e | v
      · rw [run_eq_full_err env c k f e hful hpf hfd]
        show (update_frame_data_from_js_client_keypoints env c
          k).1.current_classification ≠ none
        rw [hupd]; exact h
      · rw [run_eq_full_ok env c k f v hful hpf hfd]
        simp
  · rw [run_eq_not_full env c k hful]
    show (update_frame_data_from_js_client_keypoints env c
      k).1.current_classification ≠ none
    rw [hupd]; exact h

theorem C9_classification_never_reset_witness :
    (run_keypoint_pipeline (testEnv none)
        { fullClient1 with current_classification := some false }
        ⟨some [2]⟩).client.current_classification ≠ none
    ∧ (update_frame_data_from_js_client_keypoints (testEnv none)
        { fullClient1 with current_classification := some false }
        ⟨some [2]⟩).1.current_classification ≠ none :=
  C9_classification_never_reset (testEnv none)
    { fullClient1 with current_classification := some false } ⟨some [2]⟩
    (by decide)

/-- Claim C10: a successful full-window classification stores exactly the
boolean coercion `bool(predict_fn(data))` of the prediction function's
return value — only the truthiness of a non-boolean label is kept. -/
theorem C10_truthiness {σ φ : Type} (env : Env σ φ) (c : MLFlowClient)
    (k : Keypoints) (f : φ → Except PyErr PyVal) (v : PyVal)
    (hpf : env.predict_fn = some f)
    (hful : (update_frame_data_from_js_client_keypoints env c k).2.length
        = (update_frame_data_from_js_client_keypoints env c
            k).1.frame_window)
    (hfd : f (env.transform
        (env.assembleSerialize
          (update_frame_data_from_js_client_keypoints env c k).2)
        (update_frame_data_from_js_client_keypoints env c
          k).1.input_columns).1 = .ok v) :
    (run_keypoint_pipeline env c k).client.current_classification
      = some v.truthy := by
  rw [run_eq_full_ok env c k f v hful hpf hfd]

theorem C10_truthiness_witness :
    (run_keypoint_pipeline (testEnv (some predStr))
        (MLFlowClient.init 1 []) ⟨some [3]⟩).client.current_classification
      = some (PyVal.pystr "positive").truthy
    ∧ (PyVal.pystr "positive").truthy = true :=
  ⟨C10_truthiness (testEnv (some predStr)) (MLFlowClient.init 1 [])
     ⟨some [3]⟩ predStr (PyVal.pystr "positive") rfl (by decide) rfl,
   by decide⟩

/-- Claim C1 fails on the code: a capacity-1 session with a classifier
bound whose prediction function returns True receives one valid
observation; the window becomes full, the classification is computed and
stored, and yet `handle_keypoints` emits no classification event at all —
`run_keypoint_pipeline` returns None on every path, so the emission guard
`if results and ...` in the handler is never satisfied and the whole emit
branch (payload build, actuation, emit) is dead code. -/
theorem C1_no_event_emitted :
    (run_keypoint_pipeline (testEnv (some predTrue))
        (MLFlowClient.init 1 []) ⟨some [4]⟩).client.current_classification
      = some true
    ∧ (handle_keypoints (testEnv (some predTrue)) 1 7
        (some (MLFlowClient.init 1 [])) ⟨some [4]⟩).emitted = []
    ∧ (handle_keypoints (testEnv (some predTrue)) 1 7
        (some (MLFlowClient.init 1 [])) ⟨some [4]⟩).actuations = []
    ∧ (handle_keypoints (testEnv (some predTrue)) 1 7
        (some (MLFlowClient.init 1 [])) ⟨some [4]⟩).exn = none := by
  refine ⟨?_, ?_, ?_, ?_⟩ <;> rfl

/-- Claim C2 fails on the code: the call `bool(self.predict_fn(data=data))`
is not wrapped in any try/except, so an exception raised inside the
prediction function propagates out of `run_keypoint_pipeline` (and out of
the socket handler body) instead of being converted into a
classification-failure signal; no actuation happens for that window and
the stored classification stays untouched, and the mutated client state
survives so that the very next valid observation is processed and
classified normally. -/
theorem C2_exception_propagates :
    (run_keypoint_pipeline (testEnv (some predRaise))
        (MLFlowClient.init 1 []) ⟨some [4]⟩).ret = .error "boom"
    ∧ (handle_keypoints (testEnv (some predRaise)) 1 7
        (some (MLFlowClient.init 1 [])) ⟨some [4]⟩).exn = some "boom"
    ∧ (handle_keypoints (testEnv (some predRaise)) 1 7
        (some (MLFlowClient.init 1 [])) ⟨some [4]⟩).actuations = []
    ∧ (handle_keypoints (testEnv (some predRaise)) 1 7
        (some (MLFlowClient.init 1 [])) ⟨some [4]⟩).emitted = []
    ∧ (run_keypoint_pipeline (testEnv (some predRaise))
        (MLFlowClient.init 1 []) ⟨some [4]⟩).client.current_classification
      = none
    ∧ (run_keypoint_pipeline (testEnv (some predRaise))
        (run_keypoint_pipeline (testEnv (some predRaise))
          (MLFlowClient.init 1 []) ⟨some [4]⟩).client
        ⟨some [5]⟩).client.frames
      = [frameOf (testEnv (some predRaise)) ⟨some [5]⟩] := by
  refine ⟨?_, ?_, ?_, ?_, ?_, ?_⟩ <;> rfl

end StreamPoseML
